import Mathlib

/-
  Verification of the Pi Pico HD44780U LCD driver (LCD_HD44780U.c / LCD_HD44780U.h).

  The driver is embedded shallowly: every call the driver makes into the GPIO /
  timing collaborator (the pico-sdk) is recorded as an event in a trace, machine
  integers are Nat with explicit `% 2 ^ w` where C truncation matters, and the
  values sampled by `gpio_get` come from an environment `env : Nat -> Bool`
  indexed by a running counter of `gpio_get` calls.  The unbounded busy-flag
  spin loop of `_lcd_send_command` / `_lcd_send_data` is totalized with a fuel
  parameter: exhausting the fuel yields `none`, mirroring the fact that the C
  loop blocks for ever when the busy flag never clears.
-/

/-- One call of the driver into the GPIO / timing collaborator
    (pico-sdk `gpio_*` and `sleep_*` functions). -/
inductive Ev : Type where
  | put (pin : Nat) (val : Nat)
  | putMasked (mask val : Nat)
  | get (pin : Nat) (val : Bool)
  | dirOutMasked (mask : Nat)
  | dirInMasked (mask : Nat)
  | initPin (pin : Nat)
  | initMask (mask : Nat)
  | setDirPin (pin : Nat) (out : Bool)
  | funcNull (pin : Nat)
  | funcNullMasked (mask : Nat)
  | sleepUs (n : Nat)
  | sleepMs (n : Nat)
  deriving DecidableEq, Repr

/-- The `LCD_Handle` struct of LCD_HD44780U.h.  All uint8_t fields are Nat
    (kept below 256 by the operations that store into them); the C arrays
    `_data_pins[8]` and `_row_offsets[4]` are total functions from the index. -/
structure LCD_Handle : Type where
  rs_pin : Nat
  rw_pin : Nat
  enable_pin : Nat
  data_pins : Nat → Nat
  data_pins_mask : Nat
  displayfunction : Nat
  displaycontrol : Nat
  displaymode : Nat
  numlines : Nat
  row_offsets : Nat → Nat

-- Command constants of LCD_HD44780U.h.
def LCD_CLEARDISPLAY : Nat := 0x01
def LCD_RETURNHOME : Nat := 0x02
def LCD_ENTRYMODESET : Nat := 0x04
def LCD_DISPLAYCONTROL : Nat := 0x08
def LCD_CURSORSHIFT : Nat := 0x10
def LCD_FUNCTIONSET : Nat := 0x20
def LCD_SETCGRAMADDR : Nat := 0x40
def LCD_SETDDRAMADDR : Nat := 0x80
def LCD_ENTRYRIGHT : Nat := 0x00
def LCD_ENTRYLEFT : Nat := 0x02
def LCD_ENTRYSHIFTINCREMENT : Nat := 0x01
def LCD_ENTRYSHIFTDECREMENT : Nat := 0x00
def LCD_DISPLAYON : Nat := 0x04
def LCD_DISPLAYOFF : Nat := 0x00
def LCD_CURSORON : Nat := 0x02
def LCD_CURSOROFF : Nat := 0x00
def LCD_BLINKON : Nat := 0x01
def LCD_BLINKOFF : Nat := 0x00
def LCD_DISPLAYMOVE : Nat := 0x08
def LCD_CURSORMOVE : Nat := 0x00
def LCD_MOVERIGHT : Nat := 0x04
def LCD_MOVELEFT : Nat := 0x00
def LCD_8BITMODE : Nat := 0x10
def LCD_4BITMODE : Nat := 0x00
def LCD_2LINE : Nat := 0x08
def LCD_1LINE : Nat := 0x00
def LCD_5x10DOTS : Nat := 0x04
def LCD_5x8DOTS : Nat := 0x00

/-- `_lcd_write_8_bits`: drive the 8 data lines with the bits of `data` inside
    an Enable pulse; settle 1 us when the R/W line is wired, 100 us otherwise. -/
def lcd_write_8_bits (h : LCD_Handle) (data : Nat) : List Ev :=
  (if h.rw_pin ≠ 255 then
    [Ev.put h.rw_pin 0, Ev.sleepUs 1, Ev.dirOutMasked h.data_pins_mask]
   else [])
  ++ Ev.put h.enable_pin 1 :: Ev.sleepUs 1 ::
      ((List.range 8).map fun i => Ev.put (h.data_pins i) ((data >>> i) &&& 1))
  ++ [Ev.sleepUs 1, Ev.put h.enable_pin 0,
      Ev.sleepUs (if h.rw_pin ≠ 255 then 1 else 100)]

/-- `_lcd_write_4_bits`: as `_lcd_write_8_bits` but only data lines 0-3. -/
def lcd_write_4_bits (h : LCD_Handle) (data : Nat) : List Ev :=
  (if h.rw_pin ≠ 255 then
    [Ev.put h.rw_pin 0, Ev.sleepUs 1, Ev.dirOutMasked h.data_pins_mask]
   else [])
  ++ Ev.put h.enable_pin 1 :: Ev.sleepUs 1 ::
      ((List.range 4).map fun i => Ev.put (h.data_pins i) ((data >>> i) &&& 1))
  ++ [Ev.sleepUs 1, Ev.put h.enable_pin 0,
      Ev.sleepUs (if h.rw_pin ≠ 255 then 1 else 100)]

/-- `_lcd_read_8_bits`: result value, next `gpio_get` counter, trace.
    Returns the sentinel 255 with an empty trace when no R/W line is wired. -/
def lcd_read_8_bits (h : LCD_Handle) (env : Nat → Bool) (k : Nat) :
    Nat × Nat × List Ev :=
  if h.rw_pin = 255 then (255, k, [])
  else
    ((List.range 8).foldl (fun d i => d ||| ((if env (k + i) then 1 else 0) <<< i)) 0,
     k + 8,
     Ev.dirInMasked h.data_pins_mask :: Ev.put h.rw_pin 1 :: Ev.sleepUs 1 ::
       Ev.put h.enable_pin 1 :: Ev.sleepUs 1 ::
       ((List.range 8).map fun i => Ev.get (h.data_pins i) (env (k + i)))
     ++ [Ev.put h.enable_pin 0, Ev.sleepUs 1])

/-- `_lcd_read_4_bits`: sentinel 15 when no R/W line is wired. -/
def lcd_read_4_bits (h : LCD_Handle) (env : Nat → Bool) (k : Nat) :
    Nat × Nat × List Ev :=
  if h.rw_pin = 255 then (15, k, [])
  else
    ((List.range 4).foldl (fun d i => d ||| ((if env (k + i) then 1 else 0) <<< i)) 0,
     k + 4,
     Ev.dirInMasked h.data_pins_mask :: Ev.put h.rw_pin 1 :: Ev.sleepUs 1 ::
       Ev.put h.enable_pin 1 :: Ev.sleepUs 1 ::
       ((List.range 4).map fun i => Ev.get (h.data_pins i) (env (k + i)))
     ++ [Ev.put h.enable_pin 0, Ev.sleepUs 1])

/-- `_lcd_read_command`: RS low, then one 8-bit read or two 4-bit reads
    (high nibble first). -/
def lcd_read_command (h : LCD_Handle) (env : Nat → Bool) (k : Nat) :
    Nat × Nat × List Ev :=
  if h.displayfunction &&& LCD_8BITMODE ≠ 0 then
    let r := lcd_read_8_bits h env k
    (r.1, r.2.1, Ev.put h.rs_pin 0 :: r.2.2)
  else
    let r1 := lcd_read_4_bits h env k
    let r2 := lcd_read_4_bits h env r1.2.1
    ((r1.1 <<< 4) ||| r2.1, r2.2.1, Ev.put h.rs_pin 0 :: (r1.2.2 ++ r2.2.2))

/-- `_lcd_read_data`: RS high, then one 8-bit read or two 4-bit reads. -/
def lcd_read_data (h : LCD_Handle) (env : Nat → Bool) (k : Nat) :
    Nat × Nat × List Ev :=
  if h.displayfunction &&& LCD_8BITMODE ≠ 0 then
    let r := lcd_read_8_bits h env k
    (r.1, r.2.1, Ev.put h.rs_pin 1 :: r.2.2)
  else
    let r1 := lcd_read_4_bits h env k
    let r2 := lcd_read_4_bits h env r1.2.1
    ((r1.1 <<< 4) ||| r2.1, r2.2.1, Ev.put h.rs_pin 1 :: (r1.2.2 ++ r2.2.2))

/-- The `while (_lcd_busy(handle)) sleep_us(3);` spin of `_lcd_send_command` /
    `_lcd_send_data`, totalized by fuel (the C loop can block for ever).
    `_lcd_busy` is `_lcd_read_command(handle) & 0x80`. -/
def busyLoopGo (h : LCD_Handle) (env : Nat → Bool) :
    Nat → Nat → Option (Nat × List Ev)
  | 0, _ => none
  | fuel + 1, k =>
    let r := lcd_read_command h env k
    if r.1 &&& 0x80 ≠ 0 then
      match busyLoopGo h env fuel r.2.1 with
      | none => none
      | some (k2, tr) => some (k2, r.2.2 ++ Ev.sleepUs 3 :: tr)
    else
      some (r.2.1, r.2.2)

/-- The `if (handle->_rw_pin != 255) { while (_lcd_busy(handle)) ... }` prefix
    shared by `_lcd_send_command` and `_lcd_send_data`. -/
def busyPrefix (h : LCD_Handle) (env : Nat → Bool) (fuel k : Nat) :
    Option (Nat × List Ev) :=
  if h.rw_pin ≠ 255 then busyLoopGo h env fuel k else some (k, [])

/-- Effectful driver computations: given the `gpio_get` environment, the spin
    fuel and the current `gpio_get` counter, either diverge (`none`) or return
    a value, the new counter and the emitted trace. -/
abbrev M (α : Type) : Type := (Nat → Bool) → Nat → Nat → Option (α × Nat × List Ev)

def pureM {α : Type} (a : α) : M α := fun _ _ k => some (a, k, [])

def bindM {α β : Type} (x : M α) (f : α → M β) : M β := fun env fuel k =>
  match x env fuel k with
  | none => none
  | some (a, k2, t1) =>
    match f a env fuel k2 with
    | none => none
    | some (b, k3, t2) => some (b, k3, t1 ++ t2)

def seqM {α β : Type} (x : M α) (y : M β) : M β := bindM x fun _ => y

def emitM (tr : List Ev) : M Unit := fun _ _ k => some ((), k, tr)

/-- Lift a (total) read-path function into `M`. -/
def liftP (f : (Nat → Bool) → Nat → Nat × Nat × List Ev) : M Nat :=
  fun env _ k =>
    let r := f env k
    some (r.1, r.2.1, r.2.2)

/-- `_lcd_send_command`: optional busy wait, RS low, then one 8-bit write or
    two 4-bit writes (high nibble first).  The uint8_t parameter truncates. -/
def lcd_send_command (h : LCD_Handle) (command : Nat) : M Unit :=
  fun env fuel k =>
    let command := command % 256
    match busyPrefix h env fuel k with
    | none => none
    | some (k2, tr) =>
      some ((), k2, tr ++ Ev.put h.rs_pin 0 ::
        (if h.displayfunction &&& LCD_8BITMODE ≠ 0 then
          lcd_write_8_bits h command
         else
          lcd_write_4_bits h (command >>> 4) ++ lcd_write_4_bits h command))

/-- `_lcd_send_data`: as `_lcd_send_command` but with RS high. -/
def lcd_send_data (h : LCD_Handle) (data : Nat) : M Unit :=
  fun env fuel k =>
    let data := data % 256
    match busyPrefix h env fuel k with
    | none => none
    | some (k2, tr) =>
      some ((), k2, tr ++ Ev.put h.rs_pin 1 ::
        (if h.displayfunction &&& LCD_8BITMODE ≠ 0 then
          lcd_write_8_bits h data
         else
          lcd_write_4_bits h (data >>> 4) ++ lcd_write_4_bits h data))

/-- The row-index clamping of `lcd_set_cursor`, in C uint8 arithmetic:
    first clamp to the 4-entry offset table (`max_lines - 1 = 3`), then to
    `_numlines - 1` (which wraps to 255 when `_numlines = 0`). -/
def setCursorRow (numlines row : Nat) : Nat :=
  let row1 := if 4 ≤ row then 4 - 1 else row
  if numlines ≤ row1 then (numlines + 255) % 256 else row1

/-- `lcd_set_cursor`: silent no-op on NULL, otherwise clamp the row and send
    `LCD_SETDDRAMADDR | (col + _row_offsets[row])`. -/
def lcd_set_cursor (h? : Option LCD_Handle) (col row : Nat) :
    M (Option LCD_Handle) :=
  match h? with
  | none => pureM none
  | some h =>
    seqM (lcd_send_command h
            (LCD_SETDDRAMADDR ||| (col + h.row_offsets (setCursorRow h.numlines row))))
         (pureM (some h))

/-- `lcd_clear`: send LCD_CLEARDISPLAY then wait 5 ms. -/
def lcd_clear (h? : Option LCD_Handle) : M (Option LCD_Handle) :=
  match h? with
  | none => pureM none
  | some h =>
    seqM (lcd_send_command h LCD_CLEARDISPLAY)
      (seqM (emitM [Ev.sleepMs 5]) (pureM (some h)))

/-- `lcd_home`: send LCD_RETURNHOME then wait 5 ms. -/
def lcd_home (h? : Option LCD_Handle) : M (Option LCD_Handle) :=
  match h? with
  | none => pureM none
  | some h =>
    seqM (lcd_send_command h LCD_RETURNHOME)
      (seqM (emitM [Ev.sleepMs 5]) (pureM (some h)))

/-- `lcd_display_off`: clear LCD_DISPLAYON in `_displaycontrol`, resend the
    full byte.  (`&= ~flag` on a uint8 field is `&&& (255 ^^^ flag)`.) -/
def lcd_display_off (h? : Option LCD_Handle) : M (Option LCD_Handle) :=
  match h? with
  | none => pureM none
  | some h =>
    let h2 := { h with displaycontrol := h.displaycontrol &&& (255 ^^^ LCD_DISPLAYON) }
    seqM (lcd_send_command h2 (LCD_DISPLAYCONTROL ||| h2.displaycontrol))
      (pureM (some h2))

/-- `lcd_display_on`: set LCD_DISPLAYON, resend the full byte. -/
def lcd_display_on (h? : Option LCD_Handle) : M (Option LCD_Handle) :=
  match h? with
  | none => pureM none
  | some h =>
    let h2 := { h with displaycontrol := h.displaycontrol ||| LCD_DISPLAYON }
    seqM (lcd_send_command h2 (LCD_DISPLAYCONTROL ||| h2.displaycontrol))
      (pureM (some h2))

/-- `lcd_blink_off`. -/
def lcd_blink_off (h? : Option LCD_Handle) : M (Option LCD_Handle) :=
  match h? with
  | none => pureM none
  | some h =>
    let h2 := { h with displaycontrol := h.displaycontrol &&& (255 ^^^ LCD_BLINKON) }
    seqM (lcd_send_command h2 (LCD_DISPLAYCONTROL ||| h2.displaycontrol))
      (pureM (some h2))

/-- `lcd_blink_on`. -/
def lcd_blink_on (h? : Option LCD_Handle) : M (Option LCD_Handle) :=
  match h? with
  | none => pureM none
  | some h =>
    let h2 := { h with displaycontrol := h.displaycontrol ||| LCD_BLINKON }
    seqM (lcd_send_command h2 (LCD_DISPLAYCONTROL ||| h2.displaycontrol))
      (pureM (some h2))

/-- `lcd_cursor_off`. -/
def lcd_cursor_off (h? : Option LCD_Handle) : M (Option LCD_Handle) :=
  match h? with
  | none => pureM none
  | some h =>
    let h2 := { h with displaycontrol := h.displaycontrol &&& (255 ^^^ LCD_CURSORON) }
    seqM (lcd_send_command h2 (LCD_DISPLAYCONTROL ||| h2.displaycontrol))
      (pureM (some h2))

/-- `lcd_cursor_on`. -/
def lcd_cursor_on (h? : Option LCD_Handle) : M (Option LCD_Handle) :=
  match h? with
  | none => pureM none
  | some h =>
    let h2 := { h with displaycontrol := h.displaycontrol ||| LCD_CURSORON }
    seqM (lcd_send_command h2 (LCD_DISPLAYCONTROL ||| h2.displaycontrol))
      (pureM (some h2))

/-- `lcd_scroll_display_left`: stateless shift command. -/
def lcd_scroll_display_left (h? : Option LCD_Handle) : M (Option LCD_Handle) :=
  match h? with
  | none => pureM none
  | some h =>
    seqM (lcd_send_command h (LCD_CURSORSHIFT ||| LCD_DISPLAYMOVE ||| LCD_MOVELEFT))
      (pureM (some h))

/-- `lcd_scroll_display_right`. -/
def lcd_scroll_display_right (h? : Option LCD_Handle) : M (Option LCD_Handle) :=
  match h? with
  | none => pureM none
  | some h =>
    seqM (lcd_send_command h (LCD_CURSORSHIFT ||| LCD_DISPLAYMOVE ||| LCD_MOVERIGHT))
      (pureM (some h))

/-- `lcd_left_to_right`: set LCD_ENTRYLEFT in `_displaymode`, resend. -/
def lcd_left_to_right (h? : Option LCD_Handle) : M (Option LCD_Handle) :=
  match h? with
  | none => pureM none
  | some h =>
    let h2 := { h with displaymode := h.displaymode ||| LCD_ENTRYLEFT }
    seqM (lcd_send_command h2 (LCD_ENTRYMODESET ||| h2.displaymode))
      (pureM (some h2))

/-- `lcd_right_to_left`: clear LCD_ENTRYLEFT, resend. -/
def lcd_right_to_left (h? : Option LCD_Handle) : M (Option LCD_Handle) :=
  match h? with
  | none => pureM none
  | some h =>
    let h2 := { h with displaymode := h.displaymode &&& (255 ^^^ LCD_ENTRYLEFT) }
    seqM (lcd_send_command h2 (LCD_ENTRYMODESET ||| h2.displaymode))
      (pureM (some h2))

/-- `lcd_autoscroll_off`. -/
def lcd_autoscroll_off (h? : Option LCD_Handle) : M (Option LCD_Handle) :=
  match h? with
  | none => pureM none
  | some h =>
    let h2 := { h with displaymode := h.displaymode &&& (255 ^^^ LCD_ENTRYSHIFTINCREMENT) }
    seqM (lcd_send_command h2 (LCD_ENTRYMODESET ||| h2.displaymode))
      (pureM (some h2))

/-- `lcd_autoscroll_on`. -/
def lcd_autoscroll_on (h? : Option LCD_Handle) : M (Option LCD_Handle) :=
  match h? with
  | none => pureM none
  | some h =>
    let h2 := { h with displaymode := h.displaymode ||| LCD_ENTRYSHIFTINCREMENT }
    seqM (lcd_send_command h2 (LCD_ENTRYMODESET ||| h2.displaymode))
      (pureM (some h2))

/-- `lcd_write_char`: one data byte at the cursor. -/
def lcd_write_char (h? : Option LCD_Handle) (symbol : Nat) :
    M (Option LCD_Handle) :=
  match h? with
  | none => pureM none
  | some h => seqM (lcd_send_data h symbol) (pureM (some h))

/-- `lcd_write_string`: one `lcd_write_char` per character of the text. -/
def lcd_write_string (h? : Option LCD_Handle) (text : List Nat) :
    M (Option LCD_Handle) :=
  match h? with
  | none => pureM none
  | some h =>
    seqM (text.foldl (fun m c => seqM m (lcd_send_data h c)) (pureM ()))
      (pureM (some h))

/-- `lcd_write_char_at`: `lcd_set_cursor` then `lcd_write_char`. -/
def lcd_write_char_at (h? : Option LCD_Handle) (symbol col row : Nat) :
    M (Option LCD_Handle) :=
  match h? with
  | none => pureM none
  | some h =>
    seqM (lcd_set_cursor (some h) col row) (lcd_write_char (some h) symbol)

/-- `lcd_write_string_at`: `lcd_set_cursor` then `lcd_write_string`. -/
def lcd_write_string_at (h? : Option LCD_Handle) (text : List Nat)
    (col row : Nat) : M (Option LCD_Handle) :=
  match h? with
  | none => pureM none
  | some h =>
    seqM (lcd_set_cursor (some h) col row) (lcd_write_string (some h) text)

/-- `lcd_create_char`: optionally read the DDRAM address back, write the 8
    pattern rows at CGRAM `(num & 0x7) << 3`, optionally restore the address. -/
def lcd_create_char (h? : Option LCD_Handle) (num : Nat) (data : Nat → Nat) :
    M (Option LCD_Handle) :=
  match h? with
  | none => pureM none
  | some h =>
    bindM
      (if h.rw_pin ≠ 255 then
        bindM (liftP (lcd_read_command h)) (fun v => pureM (v &&& 0x7F))
       else pureM 0)
      (fun ddram_address =>
        let gcram_address := (num &&& 0x7) <<< 3
        seqM
          ((List.range 8).foldl
            (fun m i =>
              seqM m
                (seqM (lcd_send_command h (LCD_SETCGRAMADDR ||| (gcram_address + i)))
                      (lcd_send_data h (data i))))
            (pureM ()))
          (seqM
            (if h.rw_pin ≠ 255 then
              lcd_send_command h (LCD_SETDDRAMADDR ||| ddram_address)
             else pureM ())
            (pureM (some h))))

/-- `_lcd_init_pins`: data mask to output low, RS/Enable (and R/W if wired)
    to output low. -/
def initPinsTrace (h : LCD_Handle) : List Ev :=
  [Ev.initMask h.data_pins_mask, Ev.dirOutMasked h.data_pins_mask,
   Ev.putMasked h.data_pins_mask 0,
   Ev.initPin h.rs_pin, Ev.setDirPin h.rs_pin true, Ev.put h.rs_pin 0,
   Ev.initPin h.enable_pin, Ev.setDirPin h.enable_pin true, Ev.put h.enable_pin 0]
  ++ (if h.rw_pin ≠ 255 then
       [Ev.initPin h.rw_pin, Ev.setDirPin h.rw_pin true, Ev.put h.rw_pin 0]
      else [])

/-- `_lcd_deinit_pins`. -/
def deinitPinsTrace (h : LCD_Handle) : List Ev :=
  [Ev.funcNullMasked h.data_pins_mask, Ev.funcNull h.rs_pin,
   Ev.funcNull h.enable_pin]
  ++ (if h.rw_pin ≠ 255 then [Ev.funcNull h.rw_pin] else [])

/-- `lcd_deinit`: clear, home, display off, release pins, free; returns NULL. -/
def lcd_deinit (h? : Option LCD_Handle) : M (Option LCD_Handle) :=
  match h? with
  | none => pureM none
  | some h =>
    seqM (lcd_clear (some h))
      (seqM (lcd_home (some h))
        (seqM (lcd_display_off (some h))
          (seqM (emitM (deinitPinsTrace h)) (pureM none))))

/-- The field updates `_lcd_setup` performs on the handle before the
    handshake: `_displayfunction` gains LCD_2LINE when `rows > 1` and
    LCD_5x10DOTS for a non-5x8 font on a 1-row display, `_numlines` is the
    caller's `rows` unchecked, and `_row_offsets` becomes the HD44780 memory
    map [0x00, 0x40, 0x00 + cols, 0x40 + cols] (uint8 stores). -/
def setupHandle (h : LCD_Handle) (cols rows charsize : Nat) : LCD_Handle :=
  let df1 := if 1 < rows then h.displayfunction ||| LCD_2LINE else h.displayfunction
  let df2 := if charsize ≠ LCD_5x8DOTS ∧ rows = 1 then df1 ||| LCD_5x10DOTS else df1
  { h with
    displayfunction := df2
    numlines := rows
    row_offsets := fun i =>
      if i = 0 then 0x00
      else if i = 1 then 0x40
      else if i = 2 then (0x00 + cols) % 256
      else if i = 3 then (0x40 + cols) % 256
      else h.row_offsets i }

/-- `_lcd_setup`: fix `_displayfunction`, `_numlines` and `_row_offsets`,
    run the datasheet mode-establishment handshake (three raw function-set
    writes in 8-bit mode; three 0x3 nibbles and one 0x2 nibble in 4-bit mode,
    each followed by 5 ms), then send the canonical function-set,
    display-control and entry-mode commands. -/
def lcd_setup (h : LCD_Handle) (cols rows charsize : Nat) : M LCD_Handle :=
  let h2 := setupHandle h cols rows charsize
  seqM
    (emitM
      (if h2.displayfunction &&& LCD_8BITMODE ≠ 0 then
        lcd_write_8_bits h2 (LCD_FUNCTIONSET ||| h2.displayfunction) ++ [Ev.sleepMs 5]
        ++ lcd_write_8_bits h2 (LCD_FUNCTIONSET ||| h2.displayfunction) ++ [Ev.sleepMs 5]
        ++ lcd_write_8_bits h2 (LCD_FUNCTIONSET ||| h2.displayfunction) ++ [Ev.sleepMs 5]
       else
        lcd_write_4_bits h2 0x03 ++ [Ev.sleepMs 5]
        ++ lcd_write_4_bits h2 0x03 ++ [Ev.sleepMs 5]
        ++ lcd_write_4_bits h2 0x03 ++ [Ev.sleepMs 5]
        ++ lcd_write_4_bits h2 0x02 ++ [Ev.sleepMs 5]))
    (seqM (lcd_send_command h2 (LCD_FUNCTIONSET ||| h2.displayfunction))
      (let h3 := { h2 with
                   displaycontrol := LCD_DISPLAYON ||| LCD_CURSOROFF ||| LCD_BLINKOFF }
       seqM (lcd_send_command h3 (LCD_DISPLAYCONTROL ||| h3.displaycontrol))
        (let h4 := { h3 with
                     displaymode := LCD_ENTRYLEFT ||| LCD_ENTRYSHIFTDECREMENT }
         seqM (lcd_send_command h4 (LCD_ENTRYMODESET ||| h4.displaymode))
          (pureM h4))))

/-- `_lcd_init` (allocation modeled as succeeding; the malloc-failure path
    returns NULL in C and performs nothing): 50 ms power-on wait, field
    assignment, pin init, `_lcd_setup`, clear and home. -/
def lcd_init_core (cols rows charsize rs rw enable d0 d1 d2 d3 d4 d5 d6 d7 : Nat)
    (eightbitmode : Bool) : M LCD_Handle :=
  let h : LCD_Handle :=
    { rs_pin := rs
      rw_pin := rw
      enable_pin := enable
      data_pins := fun i =>
        if i = 0 then d0 else if i = 1 then d1 else if i = 2 then d2
        else if i = 3 then d3 else if i = 4 then d4 else if i = 5 then d5
        else if i = 6 then d6 else if i = 7 then d7 else 0
      data_pins_mask :=
        if eightbitmode then
          ((1 <<< d0) ||| (1 <<< d1) ||| (1 <<< d2) ||| (1 <<< d3)
            ||| (1 <<< d4) ||| (1 <<< d5) ||| (1 <<< d6) ||| (1 <<< d7)) % 2 ^ 32
        else
          ((1 <<< d0) ||| (1 <<< d1) ||| (1 <<< d2) ||| (1 <<< d3)) % 2 ^ 32
      displayfunction :=
        if eightbitmode then LCD_8BITMODE ||| LCD_1LINE ||| LCD_5x8DOTS
        else LCD_4BITMODE ||| LCD_1LINE ||| LCD_5x8DOTS
      -- the remaining fields are uninitialized malloc memory in C until
      -- `_lcd_setup` stores into them; 0 stands in for the garbage values
      displaycontrol := 0
      displaymode := 0
      numlines := 0
      row_offsets := fun _ => 0 }
  seqM (emitM [Ev.sleepMs 50])
    (seqM (emitM (initPinsTrace h))
      (bindM (lcd_setup h cols rows charsize) (fun h2 =>
        seqM (lcd_clear (some h2))
          (seqM (lcd_home (some h2)) (pureM h2)))))

/-- `lcd_init_8bit`. -/
def lcd_init_8bit (cols rows charsize rs rw enable d0 d1 d2 d3 d4 d5 d6 d7 : Nat) :
    M LCD_Handle :=
  lcd_init_core cols rows charsize rs rw enable d0 d1 d2 d3 d4 d5 d6 d7 true

/-- `lcd_init_4bit`. -/
def lcd_init_4bit (cols rows charsize rs rw enable d4 d5 d6 d7 : Nat) :
    M LCD_Handle :=
  lcd_init_core cols rows charsize rs rw enable d4 d5 d6 d7 0 0 0 0 false

/-- Spec-side (section 4.1 "Bit-Transfer Engine"): one `width`-bit bus
    transfer of `value`: optional R/W-low and direction switch, Enable pulse
    with 1 us setup/hold, data line `i` carries bit `i` of `value`, and the
    settle delay (1 us with busy polling available, 100 us otherwise). -/
def specTransfer (h : LCD_Handle) (width value : Nat) : List Ev :=
  (if h.rw_pin ≠ 255 then
    [Ev.put h.rw_pin 0, Ev.sleepUs 1, Ev.dirOutMasked h.data_pins_mask]
   else [])
  ++ Ev.put h.enable_pin 1 :: Ev.sleepUs 1 ::
      ((List.range width).map fun i =>
        Ev.put (h.data_pins i) (if value.testBit i then 1 else 0))
  ++ [Ev.sleepUs 1, Ev.put h.enable_pin 0,
      Ev.sleepUs (if h.rw_pin ≠ 255 then 1 else 100)]

/-- Spec-side (section 4.2 "Command/Data Channel"): Register-Select is driven
    to `rsVal`, then the byte goes out as exactly one 8-bit transfer in 8-bit
    mode, or exactly two 4-bit transfers, high nibble first, in 4-bit mode. -/
def specSend (h : LCD_Handle) (rsVal byte : Nat) : List Ev :=
  Ev.put h.rs_pin rsVal ::
    (if h.displayfunction &&& LCD_8BITMODE ≠ 0 then specTransfer h 8 byte
     else specTransfer h 4 (byte / 16) ++ specTransfer h 4 (byte % 16))

/-- `gpio_get` counter after `n` completed busy polls starting at counter `k`. -/
def pollK (h : LCD_Handle) (env : Nat → Bool) (k : Nat) : Nat → Nat
  | 0 => k
  | n + 1 => (lcd_read_command h env (pollK h env k n)).2.1

/-- Busy bit (bit 7 of the command register) seen by poll number `n`. -/
def pollBusy (h : LCD_Handle) (env : Nat → Bool) (k n : Nat) : Bool :=
  (lcd_read_command h env (pollK h env k n)).1.testBit 7

/-- Spec-side: the trace of a busy-flag wait that sees `n` busy polls (each
    followed by the ~3 us backoff) and then one poll with the flag clear. -/
def specPollTrace (h : LCD_Handle) (env : Nat → Bool) (k : Nat) : Nat → List Ev
  | 0 => (lcd_read_command h env k).2.2
  | n + 1 =>
    (lcd_read_command h env k).2.2
      ++ Ev.sleepUs 3 :: specPollTrace h env (lcd_read_command h env k).2.1 n

/-- Spec-side row clamping of `setCursor`: a row of at least `numlines` is
    replaced by `numlines - 1`, and a row beyond the 4-entry offset table is
    replaced by index 3. -/
def specClampedRow (numlines row : Nat) : Nat :=
  min (min row (numlines - 1)) 3

/-- Does a trace contain any `gpio_get` (bus read)? -/
def hasGet (tr : List Ev) : Bool :=
  tr.any fun e =>
    match e with
    | Ev.get _ _ => true
    | _ => false

/-- An environment in which every `gpio_get` samples low (never busy). -/
def envF : Nat → Bool := fun _ => false

/-- A concrete 4-bit-mode handle without a R/W line, as `lcd_init_4bit` with
    16 columns and 2 rows produces it (used by witnesses). -/
def hW4 : LCD_Handle :=
  { rs_pin := 6
    rw_pin := 255
    enable_pin := 4
    data_pins := fun i => if i ≤ 3 then i else 0
    data_pins_mask := 15
    displayfunction := LCD_2LINE
    displaycontrol := LCD_DISPLAYON
    displaymode := LCD_ENTRYLEFT
    numlines := 2
    row_offsets := fun i =>
      if i = 0 then 0 else if i = 1 then 0x40
      else if i = 2 then 16 else if i = 3 then 0x50 else 0 }

/-- A concrete 8-bit-mode handle with a wired R/W line (used by witnesses). -/
def hW8 : LCD_Handle :=
  { rs_pin := 6
    rw_pin := 5
    enable_pin := 4
    data_pins := fun i => if i ≤ 7 then 8 + i else 0
    data_pins_mask := 0xFF00
    displayfunction := LCD_8BITMODE ||| LCD_2LINE
    displaycontrol := LCD_DISPLAYON
    displaymode := LCD_ENTRYLEFT
    numlines := 2
    row_offsets := fun i =>
      if i = 0 then 0 else if i = 1 then 0x40
      else if i = 2 then 16 else if i = 3 then 0x50 else 0 }

/-- Spec-side (section 4.3, step (c)): the mode-establishment handshake.
    In 8-bit mode, exactly three function-set byte writes, each followed by a
    5 ms delay; in 4-bit mode, exactly three writes of the nibble 0x3 and then
    one write of the nibble 0x2, each followed by a 5 ms delay. -/
def specHandshake (h2 : LCD_Handle) : List Ev :=
  if h2.displayfunction &&& LCD_8BITMODE ≠ 0 then
    specTransfer h2 8 (LCD_FUNCTIONSET ||| h2.displayfunction) ++ [Ev.sleepMs 5]
    ++ specTransfer h2 8 (LCD_FUNCTIONSET ||| h2.displayfunction) ++ [Ev.sleepMs 5]
    ++ specTransfer h2 8 (LCD_FUNCTIONSET ||| h2.displayfunction) ++ [Ev.sleepMs 5]
  else
    specTransfer h2 4 0x3 ++ [Ev.sleepMs 5]
    ++ specTransfer h2 4 0x3 ++ [Ev.sleepMs 5]
    ++ specTransfer h2 4 0x3 ++ [Ev.sleepMs 5]
    ++ specTransfer h2 4 0x2 ++ [Ev.sleepMs 5]

/-- Spec-side (section 4.3, steps (d)-(f)): only after the handshake, the
    canonical function-set command (line count and font now fixed in
    `_displayfunction`), then the display-control command with
    display-on/cursor-off/blink-off (byte 0x08 | 0x04 = 0x0C), then the
    entry-mode command with left-to-right/no-autoscroll (0x04 | 0x02 = 0x06). -/
def specSetupTail (h2 : LCD_Handle) : M LCD_Handle :=
  seqM (lcd_send_command h2 (LCD_FUNCTIONSET ||| h2.displayfunction))
    (seqM (lcd_send_command { h2 with displaycontrol := 0x04 } 0x0C)
      (seqM (lcd_send_command
              { h2 with displaycontrol := 0x04, displaymode := 0x02 } 0x06)
        (pureM { h2 with displaycontrol := 0x04, displaymode := 0x02 })))

theorem lem_testBit_and (d i : Nat) :
    (d >>> i) &&& 1 = if d.testBit i then 1 else 0 := by
  rw [Nat.and_one_is_mod, Nat.testBit_to_div_mod, Nat.shiftRight_eq_div_pow]
  rcases Nat.mod_two_eq_zero_or_one (d / 2 ^ i) with hm | hm <;> simp [hm]

theorem lem_write8_spec (h : LCD_Handle) (v : Nat) :
    lcd_write_8_bits h v = specTransfer h 8 v := by
  unfold lcd_write_8_bits specTransfer
  simp only [lem_testBit_and]

theorem lem_write4_spec (h : LCD_Handle) (v : Nat) :
    lcd_write_4_bits h v = specTransfer h 4 (v % 16) := by
  unfold lcd_write_4_bits specTransfer
  have hm : ((List.range 4).map fun i => Ev.put (h.data_pins i) ((v >>> i) &&& 1))
      = (List.range 4).map fun i =>
          Ev.put (h.data_pins i) (if (v % 16).testBit i then 1 else 0) := by
    refine List.map_congr_left ?_
    intro i hi
    rw [List.mem_range] at hi
    rw [lem_testBit_and, show (16 : Nat) = 2 ^ 4 from rfl, Nat.testBit_mod_two_pow]
    simp [hi]
  rw [hm]

theorem lem_send_command_spec (h : LCD_Handle) (c : Nat) (env : Nat → Bool)
    (fuel k : Nat) :
    lcd_send_command h c env fuel k
      = Option.map (fun p => ((), p.1, p.2 ++ specSend h 0 (c % 256)))
          (busyPrefix h env fuel k) := by
  unfold lcd_send_command specSend
  cases hb : busyPrefix h env fuel k with
  | none => simp
  | some p =>
    obtain ⟨k2, tr⟩ := p
    by_cases h8 : h.displayfunction &&& LCD_8BITMODE ≠ 0
    · simp [h8, lem_write8_spec]
    · have hdiv : (c % 256) >>> 4 % 16 = c % 256 / 16 := by
        rw [Nat.shiftRight_eq_div_pow]
        exact Nat.mod_eq_of_lt (by omega)
      simp [h8, lem_write4_spec, hdiv]

theorem lem_send_data_spec (h : LCD_Handle) (c : Nat) (env : Nat → Bool)
    (fuel k : Nat) :
    lcd_send_data h c env fuel k
      = Option.map (fun p => ((), p.1, p.2 ++ specSend h 1 (c % 256)))
          (busyPrefix h env fuel k) := by
  unfold lcd_send_data specSend
  cases hb : busyPrefix h env fuel k with
  | none => simp
  | some p =>
    obtain ⟨k2, tr⟩ := p
    by_cases h8 : h.displayfunction &&& LCD_8BITMODE ≠ 0
    · simp [h8, lem_write8_spec]
    · have hdiv : (c % 256) >>> 4 % 16 = c % 256 / 16 := by
        rw [Nat.shiftRight_eq_div_pow]
        exact Nat.mod_eq_of_lt (by omega)
      simp [h8, lem_write4_spec, hdiv]

/-- Claim C1: for every handle and byte, sending the byte as a command or as
    data first performs the (possibly empty) busy wait, then drives
    Register-Select (low for a command, high for data) and emits, in 4-bit
    mode, exactly two 4-bit bus transfers carrying the high nibble first and
    the low nibble second, and in 8-bit mode, exactly one 8-bit bus transfer
    of the byte — this is the content of `specSend`. -/
theorem claim_C1 (h : LCD_Handle) (b : Nat) (env : Nat → Bool) (fuel k : Nat) :
    lcd_send_command h b env fuel k
        = Option.map (fun p => ((), p.1, p.2 ++ specSend h 0 (b % 256)))
            (busyPrefix h env fuel k)
      ∧ lcd_send_data h b env fuel k
        = Option.map (fun p => ((), p.1, p.2 ++ specSend h 1 (b % 256)))
            (busyPrefix h env fuel k) :=
  ⟨lem_send_command_spec h b env fuel k, lem_send_data_spec h b env fuel k⟩

/-- Claim C2: `_lcd_setup` performs the mode-establishment handshake — three
    function-set byte writes (8-bit mode) or three 0x3 nibbles then one 0x2
    nibble (4-bit mode), every write followed by a 5 ms delay — and only then
    sends the canonical function-set command, the display-control command
    (display on, cursor off, blink off) and the entry-mode command
    (left-to-right, no autoscroll); the claim also fixes what the updated
    `_displayfunction` is. -/
theorem claim_C2 (h : LCD_Handle) (cols rows charsize : Nat) (env : Nat → Bool)
    (fuel k : Nat) :
    lcd_setup h cols rows charsize env fuel k
      = bindM (emitM (specHandshake (setupHandle h cols rows charsize)))
          (fun _ => specSetupTail (setupHandle h cols rows charsize)) env fuel k
    ∧ (setupHandle h cols rows charsize).displayfunction
      = (h.displayfunction ||| (if 1 < rows then LCD_2LINE else 0))
        ||| (if charsize ≠ LCD_5x8DOTS ∧ rows = 1 then LCD_5x10DOTS else 0) := by
  constructor
  · unfold lcd_setup specSetupTail specHandshake
    have hh : (if (setupHandle h cols rows charsize).displayfunction &&& LCD_8BITMODE ≠ 0 then
        lcd_write_8_bits (setupHandle h cols rows charsize)
          (LCD_FUNCTIONSET ||| (setupHandle h cols rows charsize).displayfunction) ++ [Ev.sleepMs 5]
        ++ lcd_write_8_bits (setupHandle h cols rows charsize)
          (LCD_FUNCTIONSET ||| (setupHandle h cols rows charsize).displayfunction) ++ [Ev.sleepMs 5]
        ++ lcd_write_8_bits (setupHandle h cols rows charsize)
          (LCD_FUNCTIONSET ||| (setupHandle h cols rows charsize).displayfunction) ++ [Ev.sleepMs 5]
       else
        lcd_write_4_bits (setupHandle h cols rows charsize) 0x03 ++ [Ev.sleepMs 5]
        ++ lcd_write_4_bits (setupHandle h cols rows charsize) 0x03 ++ [Ev.sleepMs 5]
        ++ lcd_write_4_bits (setupHandle h cols rows charsize) 0x03 ++ [Ev.sleepMs 5]
        ++ lcd_write_4_bits (setupHandle h cols rows charsize) 0x02 ++ [Ev.sleepMs 5])
      = (if (setupHandle h cols rows charsize).displayfunction &&& LCD_8BITMODE ≠ 0 then
        specTransfer (setupHandle h cols rows charsize) 8
          (LCD_FUNCTIONSET ||| (setupHandle h cols rows charsize).displayfunction) ++ [Ev.sleepMs 5]
        ++ specTransfer (setupHandle h cols rows charsize) 8
          (LCD_FUNCTIONSET ||| (setupHandle h cols rows charsize).displayfunction) ++ [Ev.sleepMs 5]
        ++ specTransfer (setupHandle h cols rows charsize) 8
          (LCD_FUNCTIONSET ||| (setupHandle h cols rows charsize).displayfunction) ++ [Ev.sleepMs 5]
       else
        specTransfer (setupHandle h cols rows charsize) 4 0x3 ++ [Ev.sleepMs 5]
        ++ specTransfer (setupHandle h cols rows charsize) 4 0x3 ++ [Ev.sleepMs 5]
        ++ specTransfer (setupHandle h cols rows charsize) 4 0x3 ++ [Ev.sleepMs 5]
        ++ specTransfer (setupHandle h cols rows charsize) 4 0x2 ++ [Ev.sleepMs 5]) := by
      by_cases h8 : (setupHandle h cols rows charsize).displayfunction &&& LCD_8BITMODE ≠ 0
      · simp [h8, lem_write8_spec]
      · simp [h8, lem_write4_spec]
    rw [hh]
    simp only [seqM, LCD_DISPLAYON, LCD_CURSOROFF, LCD_BLINKOFF, LCD_ENTRYLEFT,
      LCD_ENTRYSHIFTDECREMENT, LCD_DISPLAYCONTROL, LCD_ENTRYMODESET,
      Nat.or_zero, Nat.zero_or,
      show (8 : Nat) ||| 4 = 12 by decide, show (4 : Nat) ||| 2 = 6 by decide]
  · unfold setupHandle
    by_cases h1 : 1 < rows <;> by_cases h2 : charsize ≠ LCD_5x8DOTS ∧ rows = 1 <;>
      simp [h1, h2]

/-- Claim C9: every public operation that takes a handle, called with NULL,
    performs no bus transfer, no GPIO access and no state change — the run
    returns immediately with an empty trace and an unchanged counter — and
    `lcd_deinit` additionally returns NULL. -/
theorem claim_C9 (env : Nat → Bool) (fuel k col row symbol num : Nat)
    (text : List Nat) (data : Nat → Nat) :
    lcd_clear none env fuel k = some (none, k, [])
    ∧ lcd_home none env fuel k = some (none, k, [])
    ∧ lcd_display_off none env fuel k = some (none, k, [])
    ∧ lcd_display_on none env fuel k = some (none, k, [])
    ∧ lcd_blink_off none env fuel k = some (none, k, [])
    ∧ lcd_blink_on none env fuel k = some (none, k, [])
    ∧ lcd_cursor_off none env fuel k = some (none, k, [])
    ∧ lcd_cursor_on none env fuel k = some (none, k, [])
    ∧ lcd_scroll_display_left none env fuel k = some (none, k, [])
    ∧ lcd_scroll_display_right none env fuel k = some (none, k, [])
    ∧ lcd_left_to_right none env fuel k = some (none, k, [])
    ∧ lcd_right_to_left none env fuel k = some (none, k, [])
    ∧ lcd_autoscroll_off none env fuel k = some (none, k, [])
    ∧ lcd_autoscroll_on none env fuel k = some (none, k, [])
    ∧ lcd_set_cursor none col row env fuel k = some (none, k, [])
    ∧ lcd_write_char none symbol env fuel k = some (none, k, [])
    ∧ lcd_write_string none text env fuel k = some (none, k, [])
    ∧ lcd_write_char_at none symbol col row env fuel k = some (none, k, [])
    ∧ lcd_write_string_at none text col row env fuel k = some (none, k, [])
    ∧ lcd_create_char none num data env fuel k = some (none, k, [])
    ∧ lcd_deinit none env fuel k = some (none, k, []) :=
  ⟨rfl, rfl, rfl, rfl, rfl, rfl, rfl, rfl, rfl, rfl, rfl,
   rfl, rfl, rfl, rfl, rfl, rfl, rfl, rfl, rfl, rfl⟩

theorem lem_bit_shift (b : Bool) (i j : Nat) :
    ((if b then 1 else 0) <<< i).testBit j = (b && decide (j = i)) := by
  cases b
  · simp [Nat.zero_shiftLeft]
  · simp [Nat.shiftLeft_eq, Nat.testBit_two_pow, eq_comm]

/-- Claim C8: with no R/W line wired (`_rw_pin = 255`), the 8-bit read
    primitive returns the all-ones sentinel 255 and the 4-bit read primitive
    the all-ones sentinel 15, both with an unchanged `gpio_get` counter and an
    empty trace (no Enable toggle, no pin state change); with the R/W line
    wired, the returned value is the genuinely sampled bus value: bit `i`
    equals the level sampled on data line `i`. -/
theorem claim_C8 (h : LCD_Handle) (env : Nat → Bool) (k : Nat) :
    (h.rw_pin = 255 →
      lcd_read_8_bits h env k = (255, k, [])
      ∧ lcd_read_4_bits h env k = (15, k, []))
    ∧ (h.rw_pin ≠ 255 →
      (∀ i, i < 8 → (lcd_read_8_bits h env k).1.testBit i = env (k + i))
      ∧ (∀ i, i < 4 → (lcd_read_4_bits h env k).1.testBit i = env (k + i))) := by
  constructor
  · intro h255
    unfold lcd_read_8_bits lcd_read_4_bits
    simp [h255]
  · intro h255
    constructor
    · intro i hi
      unfold lcd_read_8_bits
      rw [if_neg h255]
      dsimp only
      rw [show List.range 8 = [0, 1, 2, 3, 4, 5, 6, 7] from rfl]
      dsimp only [List.foldl]
      interval_cases i <;>
        · simp only [Nat.testBit_or, lem_bit_shift, Nat.zero_testBit]
          simp
    · intro i hi
      unfold lcd_read_4_bits
      rw [if_neg h255]
      dsimp only
      rw [show List.range 4 = [0, 1, 2, 3] from rfl]
      dsimp only [List.foldl]
      interval_cases i <;>
        · simp only [Nat.testBit_or, lem_bit_shift, Nat.zero_testBit]
          simp

/-- Witness for C8 at concrete handles: `hW4` has no R/W line and yields the
    sentinels with empty traces; `hW8` has a wired R/W line and bit 0 of its
    8-bit read equals the sampled level. -/
theorem claim_C8_witness :
    (lcd_read_8_bits hW4 envF 0 = (255, 0, [])
      ∧ lcd_read_4_bits hW4 envF 0 = (15, 0, []))
    ∧ (lcd_read_8_bits hW8 envF 0).1.testBit 0 = envF (0 + 0) :=
  ⟨(claim_C8 hW4 envF 0).1 rfl,
   ((claim_C8 hW8 envF 0).2 (by decide)).1 0 (by decide)⟩

/-- Claim C4: for a handle with `1 <= _numlines <= 255` (the uint8 range the
    driver maintains), the row index `lcd_set_cursor` uses agrees with the
    spec-side clamping `specClampedRow` (row >= numlines is replaced by
    numlines - 1, a row beyond the 4-entry table by index 3), the clamped —
    never the original — row selects the offset-table entry in the single
    emitted set-DDRAM-address command, and out-of-range rows produce no
    error: the call completes exactly like any other send. -/
theorem claim_C4 (h : LCD_Handle) (col row : Nat) (env : Nat → Bool)
    (fuel k : Nat) (h1 : 1 ≤ h.numlines) (h2 : h.numlines ≤ 255) :
    setCursorRow h.numlines row = specClampedRow h.numlines row
    ∧ (h.numlines ≤ row → h.numlines ≤ 4 →
        setCursorRow h.numlines row = h.numlines - 1)
    ∧ (4 ≤ row → 4 ≤ h.numlines → setCursorRow h.numlines row = 3)
    ∧ setCursorRow h.numlines row < 4
    ∧ lcd_set_cursor (some h) col row env fuel k
      = Option.map (fun p => (some h, p.1, p.2 ++ specSend h 0
          ((LCD_SETDDRAMADDR
            ||| (col + h.row_offsets (specClampedRow h.numlines row))) % 256)))
        (busyPrefix h env fuel k) := by
  have heq : setCursorRow h.numlines row = specClampedRow h.numlines row := by
    simp only [setCursorRow, specClampedRow, Nat.min_def]
    split_ifs <;> omega
  refine ⟨heq, ?_, ?_, ?_, ?_⟩
  · intro hr hn
    simp only [setCursorRow]
    split_ifs <;> omega
  · intro hr hn
    simp only [setCursorRow]
    split_ifs <;> omega
  · simp only [setCursorRow]
    split_ifs <;> omega
  · show seqM (lcd_send_command h
        (LCD_SETDDRAMADDR ||| (col + h.row_offsets (setCursorRow h.numlines row))))
        (pureM (some h)) env fuel k = _
    rw [heq]
    unfold seqM bindM
    rw [lem_send_command_spec]
    cases hb : busyPrefix h env fuel k with
    | none => simp
    | some p => simp [pureM]

/-- Witness for C4 at the concrete 16x2 handle `hW4`, column 0, row 1. -/
theorem claim_C4_witness :
    setCursorRow hW4.numlines 1 = specClampedRow hW4.numlines 1
    ∧ setCursorRow hW4.numlines 1 < 4
    ∧ lcd_set_cursor (some hW4) 0 1 envF 0 0
      = Option.map (fun p => (some hW4, p.1, p.2 ++ specSend hW4 0
          ((LCD_SETDDRAMADDR
            ||| (0 + hW4.row_offsets (specClampedRow hW4.numlines 1))) % 256)))
        (busyPrefix hW4 envF 0 0) :=
  ⟨(claim_C4 hW4 0 1 envF 0 0 (by decide) (by decide)).1,
   (claim_C4 hW4 0 1 envF 0 0 (by decide) (by decide)).2.2.2.1,
   (claim_C4 hW4 0 1 envF 0 0 (by decide) (by decide)).2.2.2.2⟩

/-- Claim C10: when the stored line count is in `[1, 255]` the index used to
    subscript the 4-entry `_row_offsets` array is in bounds (< 4); the lower
    hypothesis is necessary because `_lcd_setup` stores the caller's `rows`
    into `_numlines` unchecked and `_numlines - 1` is computed in uint8
    arithmetic, so `_numlines = 0` yields index 255, far out of bounds. -/
theorem claim_C10 (numlines row : Nat) (h1 : 1 ≤ numlines)
    (h2 : numlines ≤ 255) :
    setCursorRow numlines row < 4
    ∧ setCursorRow 0 0 = 255
    ∧ (∀ h cols rows charsize,
        (setupHandle h cols rows charsize).numlines = rows) := by
  refine ⟨?_, by decide, fun h cols rows charsize => rfl⟩
  simp only [setCursorRow]
  split_ifs <;> omega

/-- Witness for C10 at `numlines = 2`, `row = 7`. -/
theorem claim_C10_witness :
    setCursorRow 2 7 < 4 ∧ setCursorRow 0 0 = 255 :=
  ⟨(claim_C10 2 7 (by decide) (by decide)).1,
   (claim_C10 2 7 (by decide) (by decide)).2.1⟩

theorem lem_seq_send_pure (h2 : LCD_Handle) (c : Nat) (a : Option LCD_Handle)
    (env : Nat → Bool) (fuel k : Nat) :
    seqM (lcd_send_command h2 c) (pureM a) env fuel k
      = Option.map (fun p => (a, p.1, p.2 ++ specSend h2 0 (c % 256)))
          (busyPrefix h2 env fuel k) := by
  unfold seqM bindM
  rw [lem_send_command_spec]
  cases hb : busyPrefix h2 env fuel k with
  | none => simp
  | some p => simp [pureM]

theorem lem_toggle_send (h2 : LCD_Handle) (opcode flag : Nat)
    (a : Option LCD_Handle) (env : Nat → Bool) (fuel k : Nat)
    (hop : opcode < 256) (hfl : flag < 256) :
    seqM (lcd_send_command h2 (opcode ||| flag)) (pureM a) env fuel k
      = Option.map (fun p => (a, p.1, p.2 ++ specSend h2 0 (opcode ||| flag)))
          (busyPrefix h2 env fuel k) := by
  have hc : opcode ||| flag < 256 := by
    have h1 := Nat.or_lt_two_pow (show opcode < 2 ^ 8 by omega)
      (show flag < 2 ^ 8 by omega)
    omega
  rw [lem_seq_send_pure, Nat.mod_eq_of_lt hc]

theorem lem_set_bit (x t i : Nat) :
    (x ||| 2 ^ t).testBit i = if i = t then true else x.testBit i := by
  rw [Nat.testBit_or, Nat.testBit_two_pow]
  by_cases hit : i = t
  · subst hit; simp
  · simp [hit, Ne.symm hit]

theorem lem_clear_bit (x t i : Nat) (hx : x < 256) (ht : t < 8) :
    (x &&& (255 ^^^ 2 ^ t)).testBit i = if i = t then false else x.testBit i := by
  rw [Nat.testBit_and, Nat.testBit_xor,
    show (255 : Nat) = 2 ^ 8 - 1 by norm_num,
    Nat.testBit_two_pow_sub_one, Nat.testBit_two_pow]
  by_cases hit : i = t
  · subst hit; simp [ht]
  · by_cases hi8 : i < 8
    · simp [hit, Ne.symm hit, hi8]
    · have h2i : (256 : Nat) ≤ 2 ^ i := by
        calc (256 : Nat) = 2 ^ 8 := by norm_num
          _ ≤ 2 ^ i := Nat.pow_le_pow_right (by norm_num) (by omega)
      have hbf : x.testBit i = false :=
        Nat.testBit_lt_two_pow (lt_of_lt_of_le hx h2i)
      simp [hit, hi8, hbf]

/-- Claim C6: every flag-toggle operation on a non-NULL handle updates its
    cached flag byte by setting or clearing exactly the one target bit — all
    other bits of the previous value are preserved — and sends on the wire the
    command opcode OR-ed with the full new flag byte (via `specSend`), never a
    partial or incremental update.  The uint8 fields satisfy
    `_displaycontrol, _displaymode < 256`. -/
theorem claim_C6 (h : LCD_Handle) (env : Nat → Bool) (fuel k : Nat)
    (hdc : h.displaycontrol < 256) (hdm : h.displaymode < 256) :
    (lcd_display_off (some h) env fuel k
      = Option.map (fun p =>
          (some { h with displaycontrol := h.displaycontrol &&& (255 ^^^ LCD_DISPLAYON) }, p.1,
           p.2 ++ specSend { h with displaycontrol := h.displaycontrol &&& (255 ^^^ LCD_DISPLAYON) } 0
             (LCD_DISPLAYCONTROL ||| (h.displaycontrol &&& (255 ^^^ LCD_DISPLAYON)))))
        (busyPrefix { h with displaycontrol := h.displaycontrol &&& (255 ^^^ LCD_DISPLAYON) } env fuel k))
    ∧ (∀ i, (h.displaycontrol &&& (255 ^^^ LCD_DISPLAYON)).testBit i
        = if i = 2 then false else h.displaycontrol.testBit i)
    ∧ (lcd_display_on (some h) env fuel k
      = Option.map (fun p =>
          (some { h with displaycontrol := h.displaycontrol ||| LCD_DISPLAYON }, p.1,
           p.2 ++ specSend { h with displaycontrol := h.displaycontrol ||| LCD_DISPLAYON } 0
             (LCD_DISPLAYCONTROL ||| (h.displaycontrol ||| LCD_DISPLAYON))))
        (busyPrefix { h with displaycontrol := h.displaycontrol ||| LCD_DISPLAYON } env fuel k))
    ∧ (∀ i, (h.displaycontrol ||| LCD_DISPLAYON).testBit i
        = if i = 2 then true else h.displaycontrol.testBit i)
    ∧ (lcd_blink_off (some h) env fuel k
      = Option.map (fun p =>
          (some { h with displaycontrol := h.displaycontrol &&& (255 ^^^ LCD_BLINKON) }, p.1,
           p.2 ++ specSend { h with displaycontrol := h.displaycontrol &&& (255 ^^^ LCD_BLINKON) } 0
             (LCD_DISPLAYCONTROL ||| (h.displaycontrol &&& (255 ^^^ LCD_BLINKON)))))
        (busyPrefix { h with displaycontrol := h.displaycontrol &&& (255 ^^^ LCD_BLINKON) } env fuel k))
    ∧ (∀ i, (h.displaycontrol &&& (255 ^^^ LCD_BLINKON)).testBit i
        = if i = 0 then false else h.displaycontrol.testBit i)
    ∧ (lcd_blink_on (some h) env fuel k
      = Option.map (fun p =>
          (some { h with displaycontrol := h.displaycontrol ||| LCD_BLINKON }, p.1,
           p.2 ++ specSend { h with displaycontrol := h.displaycontrol ||| LCD_BLINKON } 0
             (LCD_DISPLAYCONTROL ||| (h.displaycontrol ||| LCD_BLINKON))))
        (busyPrefix { h with displaycontrol := h.displaycontrol ||| LCD_BLINKON } env fuel k))
    ∧ (∀ i, (h.displaycontrol ||| LCD_BLINKON).testBit i
        = if i = 0 then true else h.displaycontrol.testBit i)
    ∧ (lcd_cursor_off (some h) env fuel k
      = Option.map (fun p =>
          (some { h with displaycontrol := h.displaycontrol &&& (255 ^^^ LCD_CURSORON) }, p.1,
           p.2 ++ specSend { h with displaycontrol := h.displaycontrol &&& (255 ^^^ LCD_CURSORON) } 0
             (LCD_DISPLAYCONTROL ||| (h.displaycontrol &&& (255 ^^^ LCD_CURSORON)))))
        (busyPrefix { h with displaycontrol := h.displaycontrol &&& (255 ^^^ LCD_CURSORON) } env fuel k))
    ∧ (∀ i, (h.displaycontrol &&& (255 ^^^ LCD_CURSORON)).testBit i
        = if i = 1 then false else h.displaycontrol.testBit i)
    ∧ (lcd_cursor_on (some h) env fuel k
      = Option.map (fun p =>
          (some { h with displaycontrol := h.displaycontrol ||| LCD_CURSORON }, p.1,
           p.2 ++ specSend { h with displaycontrol := h.displaycontrol ||| LCD_CURSORON } 0
             (LCD_DISPLAYCONTROL ||| (h.displaycontrol ||| LCD_CURSORON))))
        (busyPrefix { h with displaycontrol := h.displaycontrol ||| LCD_CURSORON } env fuel k))
    ∧ (∀ i, (h.displaycontrol ||| LCD_CURSORON).testBit i
        = if i = 1 then true else h.displaycontrol.testBit i)
    ∧ (lcd_left_to_right (some h) env fuel k
      = Option.map (fun p =>
          (some { h with displaymode := h.displaymode ||| LCD_ENTRYLEFT }, p.1,
           p.2 ++ specSend { h with displaymode := h.displaymode ||| LCD_ENTRYLEFT } 0
             (LCD_ENTRYMODESET ||| (h.displaymode ||| LCD_ENTRYLEFT))))
        (busyPrefix { h with displaymode := h.displaymode ||| LCD_ENTRYLEFT } env fuel k))
    ∧ (∀ i, (h.displaymode ||| LCD_ENTRYLEFT).testBit i
        = if i = 1 then true else h.displaymode.testBit i)
    ∧ (lcd_right_to_left (some h) env fuel k
      = Option.map (fun p =>
          (some { h with displaymode := h.displaymode &&& (255 ^^^ LCD_ENTRYLEFT) }, p.1,
           p.2 ++ specSend { h with displaymode := h.displaymode &&& (255 ^^^ LCD_ENTRYLEFT) } 0
             (LCD_ENTRYMODESET ||| (h.displaymode &&& (255 ^^^ LCD_ENTRYLEFT)))))
        (busyPrefix { h with displaymode := h.displaymode &&& (255 ^^^ LCD_ENTRYLEFT) } env fuel k))
    ∧ (∀ i, (h.displaymode &&& (255 ^^^ LCD_ENTRYLEFT)).testBit i
        = if i = 1 then false else h.displaymode.testBit i)
    ∧ (lcd_autoscroll_off (some h) env fuel k
      = Option.map (fun p =>
          (some { h with displaymode := h.displaymode &&& (255 ^^^ LCD_ENTRYSHIFTINCREMENT) }, p.1,
           p.2 ++ specSend { h with displaymode := h.displaymode &&& (255 ^^^ LCD_ENTRYSHIFTINCREMENT) } 0
             (LCD_ENTRYMODESET ||| (h.displaymode &&& (255 ^^^ LCD_ENTRYSHIFTINCREMENT)))))
        (busyPrefix { h with displaymode := h.displaymode &&& (255 ^^^ LCD_ENTRYSHIFTINCREMENT) } env fuel k))
    ∧ (∀ i, (h.displaymode &&& (255 ^^^ LCD_ENTRYSHIFTINCREMENT)).testBit i
        = if i = 0 then false else h.displaymode.testBit i)
    ∧ (lcd_autoscroll_on (some h) env fuel k
      = Option.map (fun p =>
          (some { h with displaymode := h.displaymode ||| LCD_ENTRYSHIFTINCREMENT }, p.1,
           p.2 ++ specSend { h with displaymode := h.displaymode ||| LCD_ENTRYSHIFTINCREMENT } 0
             (LCD_ENTRYMODESET ||| (h.displaymode ||| LCD_ENTRYSHIFTINCREMENT))))
        (busyPrefix { h with displaymode := h.displaymode ||| LCD_ENTRYSHIFTINCREMENT } env fuel k))
    ∧ (∀ i, (h.displaymode ||| LCD_ENTRYSHIFTINCREMENT).testBit i
        = if i = 0 then true else h.displaymode.testBit i) := by
  have hor4 : h.displaycontrol ||| LCD_DISPLAYON < 256 := by
    have := Nat.or_lt_two_pow (show h.displaycontrol < 2 ^ 8 by omega)
      (show LCD_DISPLAYON < 2 ^ 8 by norm_num [LCD_DISPLAYON])
    omega
  have hor2 : h.displaycontrol ||| LCD_CURSORON < 256 := by
    have := Nat.or_lt_two_pow (show h.displaycontrol < 2 ^ 8 by omega)
      (show LCD_CURSORON < 2 ^ 8 by norm_num [LCD_CURSORON])
    omega
  have hor1 : h.displaycontrol ||| LCD_BLINKON < 256 := by
    have := Nat.or_lt_two_pow (show h.displaycontrol < 2 ^ 8 by omega)
      (show LCD_BLINKON < 2 ^ 8 by norm_num [LCD_BLINKON])
    omega
  have hmor2 : h.displaymode ||| LCD_ENTRYLEFT < 256 := by
    have := Nat.or_lt_two_pow (show h.displaymode < 2 ^ 8 by omega)
      (show LCD_ENTRYLEFT < 2 ^ 8 by norm_num [LCD_ENTRYLEFT])
    omega
  have hmor1 : h.displaymode ||| LCD_ENTRYSHIFTINCREMENT < 256 := by
    have := Nat.or_lt_two_pow (show h.displaymode < 2 ^ 8 by omega)
      (show LCD_ENTRYSHIFTINCREMENT < 2 ^ 8 by norm_num [LCD_ENTRYSHIFTINCREMENT])
    omega
  refine ⟨?_, ?_, ?_, ?_, ?_, ?_, ?_, ?_, ?_, ?_, ?_, ?_, ?_, ?_, ?_, ?_, ?_,
    ?_, ?_, ?_⟩
  · exact lem_toggle_send _ _ _ _ env fuel k (by norm_num [LCD_DISPLAYCONTROL])
      (lt_of_le_of_lt Nat.and_le_left hdc)
  · intro i
    rw [show LCD_DISPLAYON = 2 ^ 2 from rfl]
    exact lem_clear_bit _ 2 i hdc (by norm_num)
  · exact lem_toggle_send _ _ _ _ env fuel k (by norm_num [LCD_DISPLAYCONTROL]) hor4
  · intro i
    rw [show LCD_DISPLAYON = 2 ^ 2 from rfl]
    exact lem_set_bit _ 2 i
  · exact lem_toggle_send _ _ _ _ env fuel k (by norm_num [LCD_DISPLAYCONTROL])
      (lt_of_le_of_lt Nat.and_le_left hdc)
  · intro i
    rw [show LCD_BLINKON = 2 ^ 0 from rfl]
    exact lem_clear_bit _ 0 i hdc (by norm_num)
  · exact lem_toggle_send _ _ _ _ env fuel k (by norm_num [LCD_DISPLAYCONTROL]) hor1
  · intro i
    rw [show LCD_BLINKON = 2 ^ 0 from rfl]
    exact lem_set_bit _ 0 i
  · exact lem_toggle_send _ _ _ _ env fuel k (by norm_num [LCD_DISPLAYCONTROL])
      (lt_of_le_of_lt Nat.and_le_left hdc)
  · intro i
    rw [show LCD_CURSORON = 2 ^ 1 from rfl]
    exact lem_clear_bit _ 1 i hdc (by norm_num)
  · exact lem_toggle_send _ _ _ _ env fuel k (by norm_num [LCD_DISPLAYCONTROL]) hor2
  · intro i
    rw [show LCD_CURSORON = 2 ^ 1 from rfl]
    exact lem_set_bit _ 1 i
  · exact lem_toggle_send _ _ _ _ env fuel k (by norm_num [LCD_ENTRYMODESET]) hmor2
  · intro i
    rw [show LCD_ENTRYLEFT = 2 ^ 1 from rfl]
    exact lem_set_bit _ 1 i
  · exact lem_toggle_send _ _ _ _ env fuel k (by norm_num [LCD_ENTRYMODESET])
      (lt_of_le_of_lt Nat.and_le_left hdm)
  · intro i
    rw [show LCD_ENTRYLEFT = 2 ^ 1 from rfl]
    exact lem_clear_bit _ 1 i hdm (by norm_num)
  · exact lem_toggle_send _ _ _ _ env fuel k (by norm_num [LCD_ENTRYMODESET])
      (lt_of_le_of_lt Nat.and_le_left hdm)
  · intro i
    rw [show LCD_ENTRYSHIFTINCREMENT = 2 ^ 0 from rfl]
    exact lem_clear_bit _ 0 i hdm (by norm_num)
  · exact lem_toggle_send _ _ _ _ env fuel k (by norm_num [LCD_ENTRYMODESET]) hmor1
  · intro i
    rw [show LCD_ENTRYSHIFTINCREMENT = 2 ^ 0 from rfl]
    exact lem_set_bit _ 0 i

/-- Witness for C6 at the concrete handle `hW4` (display-off run equality and
    the bit-level characterizations of display-off at bits 2 and 0). -/
theorem claim_C6_witness :
    (lcd_display_off (some hW4) envF 0 0
      = Option.map (fun p =>
          (some { hW4 with displaycontrol := hW4.displaycontrol &&& (255 ^^^ LCD_DISPLAYON) }, p.1,
           p.2 ++ specSend { hW4 with displaycontrol := hW4.displaycontrol &&& (255 ^^^ LCD_DISPLAYON) } 0
             (LCD_DISPLAYCONTROL ||| (hW4.displaycontrol &&& (255 ^^^ LCD_DISPLAYON)))))
        (busyPrefix { hW4 with displaycontrol := hW4.displaycontrol &&& (255 ^^^ LCD_DISPLAYON) } envF 0 0))
    ∧ (hW4.displaycontrol &&& (255 ^^^ LCD_DISPLAYON)).testBit 2
      = (if 2 = 2 then false else hW4.displaycontrol.testBit 2)
    ∧ (hW4.displaycontrol &&& (255 ^^^ LCD_DISPLAYON)).testBit 0
      = (if 0 = 2 then false else hW4.displaycontrol.testBit 0) :=
  ⟨(claim_C6 hW4 envF 0 0 (by decide) (by decide)).1,
   (claim_C6 hW4 envF 0 0 (by decide) (by decide)).2.1 2,
   (claim_C6 hW4 envF 0 0 (by decide) (by decide)).2.1 0⟩

theorem lem_bindM_some {α β : Type} {x : M α} {f : α → M β} {env : Nat → Bool}
    {fuel k : Nat} {r : β × Nat × List Ev}
    (hr : bindM x f env fuel k = some r) :
    ∃ a k2 t1 b k3 t2, x env fuel k = some (a, k2, t1)
      ∧ f a env fuel k2 = some (b, k3, t2) ∧ r = (b, k3, t1 ++ t2) := by
  unfold bindM at hr
  cases hx : x env fuel k with
  | none => rw [hx] at hr; simp at hr
  | some p =>
    obtain ⟨a, k2, t1⟩ := p
    rw [hx] at hr
    dsimp only at hr
    cases hf : f a env fuel k2 with
    | none => rw [hf] at hr; simp at hr
    | some q =>
      obtain ⟨b, k3, t2⟩ := q
      rw [hf] at hr
      dsimp only at hr
      simp only [Option.some_inj] at hr
      exact ⟨a, k2, t1, b, k3, t2, rfl, hf, hr.symm⟩

/-- Claim C5: after setup with column count `cols`, the 4-entry row-offset
    table is [0x00, 0x40, 0x00 + cols, 0x40 + cols] (uint8 stores), both in
    the field computation and in any successful `_lcd_setup` run; in
    particular, initializing in 4-bit mode with cols = 16, rows = 2 yields the
    table [0x00, 0x40, 0x10, 0x50], and `setCursor(0, 1)` then emits exactly
    what sending the command byte 0x80 ||| 0x40 = 0xC0 emits. -/
theorem claim_C5 (h : LCD_Handle) (cols rows charsize : Nat)
    (hc : cols ≤ 255) :
    (setupHandle h cols rows charsize).row_offsets 0 = 0x00
    ∧ (setupHandle h cols rows charsize).row_offsets 1 = 0x40
    ∧ (setupHandle h cols rows charsize).row_offsets 2 = cols
    ∧ (setupHandle h cols rows charsize).row_offsets 3 = (0x40 + cols) % 256
    ∧ (∀ env fuel k r, lcd_setup h cols rows charsize env fuel k = some r →
        r.1.row_offsets = (setupHandle h cols rows charsize).row_offsets)
    ∧ Option.map
        (fun r => (r.1.row_offsets 0, r.1.row_offsets 1,
                   r.1.row_offsets 2, r.1.row_offsets 3))
        (lcd_init_4bit 16 2 0 6 255 4 0 1 2 3 envF 0 0)
      = some (0x00, 0x40, 0x10, 0x50)
    ∧ Option.bind (lcd_init_4bit 16 2 0 6 255 4 0 1 2 3 envF 0 0)
        (fun r => Option.map (fun q => q.2.2)
          (lcd_set_cursor (some r.1) 0 1 envF 0 r.2.1))
      = Option.bind (lcd_init_4bit 16 2 0 6 255 4 0 1 2 3 envF 0 0)
        (fun r => Option.map (fun q => q.2.2)
          (lcd_send_command r.1 0xC0 envF 0 r.2.1)) := by
  refine ⟨by simp [setupHandle], by simp [setupHandle], ?_, by simp [setupHandle],
    ?_, by decide, by decide⟩
  · simp [setupHandle]
    omega
  · intro env fuel k r hr
    simp only [lcd_setup, seqM] at hr
    obtain ⟨a1, k1, t1, b1, k2, t2, hx1, hr1, he1⟩ := lem_bindM_some hr
    obtain ⟨a2, k3, t3, b2, k4, t4, hx2, hr2, he2⟩ := lem_bindM_some hr1
    obtain ⟨a3, k5, t5, b3, k6, t6, hx3, hr3, he3⟩ := lem_bindM_some hr2
    obtain ⟨a4, k7, t7, b4, k8, t8, hx4, hr4, he4⟩ := lem_bindM_some hr3
    simp only [pureM, Option.some_inj, Prod.mk.injEq] at hr4
    have e1 : r.1 = b1 := by rw [he1]
    have e2 : b1 = b2 := by simp only [Prod.mk.injEq] at he2; exact he2.1
    have e3 : b2 = b3 := by simp only [Prod.mk.injEq] at he3; exact he3.1
    have e4 : b3 = b4 := by simp only [Prod.mk.injEq] at he4; exact he4.1
    rw [e1, e2, e3, e4, ← hr4.1]

/-- Witness for C5 at `cols = 16`, `rows = 2`. -/
theorem claim_C5_witness :
    (setupHandle hW4 16 2 0).row_offsets 2 = 16
    ∧ (setupHandle hW4 16 2 0).row_offsets 3 = (0x40 + 16) % 256
    ∧ Option.map
        (fun r => (r.1.row_offsets 0, r.1.row_offsets 1,
                   r.1.row_offsets 2, r.1.row_offsets 3))
        (lcd_init_4bit 16 2 0 6 255 4 0 1 2 3 envF 0 0)
      = some (0x00, 0x40, 0x10, 0x50) :=
  ⟨(claim_C5 hW4 16 2 0 (by decide)).2.2.1,
   (claim_C5 hW4 16 2 0 (by decide)).2.2.2.1,
   (claim_C5 hW4 16 2 0 (by decide)).2.2.2.2.2.1⟩

theorem lem_busy_testBit (x : Nat) : x &&& 128 ≠ 0 ↔ x.testBit 7 = true := by
  rw [show (128 : Nat) = 2 ^ 7 from rfl, Nat.and_two_pow]
  cases hx : x.testBit 7 <;> simp

theorem lem_pollK_succ (h : LCD_Handle) (env : Nat → Bool) (k n : Nat) :
    pollK h env k (n + 1)
      = pollK h env ((lcd_read_command h env k).2.1) n := by
  induction n with
  | zero => rfl
  | succ n ih =>
    show (lcd_read_command h env (pollK h env k (n + 1))).2.1 = _
    rw [ih]
    rfl

theorem lem_pollBusy_succ (h : LCD_Handle) (env : Nat → Bool) (k n : Nat) :
    pollBusy h env k (n + 1)
      = pollBusy h env ((lcd_read_command h env k).2.1) n := by
  unfold pollBusy
  rw [lem_pollK_succ]

/-- A successful busy-flag wait consists of `n` polls that saw the busy bit
    set (each followed by the 3 us backoff) and one final poll that saw it
    clear; the returned counter is the one after the `n + 1` polls. -/
theorem lem_busyLoopGo_spec (h : LCD_Handle) (env : Nat → Bool) :
    ∀ fuel k k2 tr, busyLoopGo h env fuel k = some (k2, tr) →
      ∃ n, n < fuel ∧ (∀ j, j < n → pollBusy h env k j = true)
        ∧ pollBusy h env k n = false
        ∧ tr = specPollTrace h env k n
        ∧ k2 = pollK h env k (n + 1) := by
  intro fuel
  induction fuel with
  | zero => intro k k2 tr hr; simp [busyLoopGo] at hr
  | succ fuel ih =>
    intro k k2 tr hr
    simp only [busyLoopGo] at hr
    by_cases hb : (lcd_read_command h env k).1 &&& 128 ≠ 0
    · rw [if_pos hb] at hr
      cases hrec : busyLoopGo h env fuel (lcd_read_command h env k).2.1 with
      | none => rw [hrec] at hr; simp at hr
      | some p =>
        obtain ⟨k3, tr3⟩ := p
        rw [hrec] at hr
        simp only [Option.some_inj, Prod.mk.injEq] at hr
        obtain ⟨n, hn, hbusy, hclear, htr, hk⟩ := ih _ _ _ hrec
        refine ⟨n + 1, by omega, ?_, ?_, ?_, ?_⟩
        · intro j hj
          cases j with
          | zero =>
            unfold pollBusy pollK
            exact (lem_busy_testBit _).mp hb
          | succ j =>
            rw [lem_pollBusy_succ]
            exact hbusy j (by omega)
        · rw [lem_pollBusy_succ]
          exact hclear
        · rw [← hr.2, htr]
          rfl
        · rw [← hr.1, hk, lem_pollK_succ h env k (n + 1), lem_pollK_succ]
    · rw [if_neg hb] at hr
      simp only [Option.some_inj, Prod.mk.injEq] at hr
      refine ⟨0, by omega, by omega, ?_, ?_, ?_⟩
      · unfold pollBusy pollK
        rcases hx : (lcd_read_command h env k).1.testBit 7 with _ | _
        · rfl
        · exact absurd ((lem_busy_testBit _).mpr hx) hb
      · rw [← hr.2]; rfl
      · rw [← hr.1]; rfl

theorem lem_getLast_pulse (x y : Ev) (l : List Ev) (a b c : Ev) :
    (x :: y :: l ++ [a, b, c]).getLast? = some c := by
  rw [show x :: y :: l ++ [a, b, c] = (x :: y :: l ++ [a, b]) ++ [c] by simp]
  exact List.getLast?_concat _

/-- Claim C3: with the R/W line wired, `_lcd_send_command`/`_lcd_send_data`
    issue their bus transfer only after a command-register read whose busy
    flag (bit 7) is clear, having spun over busy reads with a 3 us backoff
    between polls (an exhausted fuel models the C loop blocking for ever);
    with the R/W line not wired, no busy polling occurs — the trace contains
    no `gpio_get` at all — and every individual bus transfer ends with the
    fixed 100 us settle delay. -/
theorem claim_C3 (h : LCD_Handle) (c : Nat) (env : Nat → Bool) (fuel k : Nat) :
    (h.rw_pin ≠ 255 →
      (∀ u k2 tr, lcd_send_command h c env fuel k = some (u, k2, tr) →
        ∃ n, n < fuel ∧ (∀ j, j < n → pollBusy h env k j = true)
          ∧ pollBusy h env k n = false
          ∧ tr = specPollTrace h env k n ++ specSend h 0 (c % 256)
          ∧ k2 = pollK h env k (n + 1))
      ∧ (∀ u k2 tr, lcd_send_data h c env fuel k = some (u, k2, tr) →
        ∃ n, n < fuel ∧ (∀ j, j < n → pollBusy h env k j = true)
          ∧ pollBusy h env k n = false
          ∧ tr = specPollTrace h env k n ++ specSend h 1 (c % 256)
          ∧ k2 = pollK h env k (n + 1)))
    ∧ (h.rw_pin = 255 →
      lcd_send_command h c env fuel k = some ((), k, specSend h 0 (c % 256))
      ∧ lcd_send_data h c env fuel k = some ((), k, specSend h 1 (c % 256))
      ∧ hasGet (specSend h 0 (c % 256)) = false
      ∧ hasGet (specSend h 1 (c % 256)) = false
      ∧ (∀ w v, (specTransfer h w v).getLast? = some (Ev.sleepUs 100))) := by
  constructor
  · intro hrw
    constructor
    · intro u k2 tr hr
      rw [lem_send_command_spec] at hr
      unfold busyPrefix at hr
      rw [if_pos hrw] at hr
      cases hbl : busyLoopGo h env fuel k with
      | none => rw [hbl] at hr; simp at hr
      | some p =>
        obtain ⟨k3, tr3⟩ := p
        rw [hbl] at hr
        have hr2 := Option.some.inj hr
        simp only [Prod.mk.injEq] at hr2
        obtain ⟨n, hn, hbusy, hclear, htr, hk⟩ :=
          lem_busyLoopGo_spec h env fuel k k3 tr3 hbl
        exact ⟨n, hn, hbusy, hclear,
          by rw [← hr2.2.2, htr], by rw [← hr2.2.1, hk]⟩
    · intro u k2 tr hr
      rw [lem_send_data_spec] at hr
      unfold busyPrefix at hr
      rw [if_pos hrw] at hr
      cases hbl : busyLoopGo h env fuel k with
      | none => rw [hbl] at hr; simp at hr
      | some p =>
        obtain ⟨k3, tr3⟩ := p
        rw [hbl] at hr
        have hr2 := Option.some.inj hr
        simp only [Prod.mk.injEq] at hr2
        obtain ⟨n, hn, hbusy, hclear, htr, hk⟩ :=
          lem_busyLoopGo_spec h env fuel k k3 tr3 hbl
        exact ⟨n, hn, hbusy, hclear,
          by rw [← hr2.2.2, htr], by rw [← hr2.2.1, hk]⟩
  · intro hrw
    have hbp : busyPrefix h env fuel k = some (k, []) := by
      unfold busyPrefix
      rw [if_neg (by simp [hrw])]
    refine ⟨?_, ?_, ?_, ?_, ?_⟩
    · rw [lem_send_command_spec, hbp]
      simp
    · rw [lem_send_data_spec, hbp]
      simp
    · unfold hasGet specSend specTransfer
      by_cases h8 : h.displayfunction &&& LCD_8BITMODE ≠ 0 <;>
        simp [h8, hrw, List.any_map, Function.comp]
    · unfold hasGet specSend specTransfer
      by_cases h8 : h.displayfunction &&& LCD_8BITMODE ≠ 0 <;>
        simp [h8, hrw, List.any_map, Function.comp]
    · intro w v
      unfold specTransfer
      rw [if_neg (by simp [hrw])]
      rw [List.nil_append]
      rw [if_neg (show ¬h.rw_pin ≠ 255 by simp [hrw])]
      exact lem_getLast_pulse _ _ _ _ _ _

/-- Witness for C3 at the unwired handle `hW4` (no polling, settle delay). -/
theorem claim_C3_witness :
    lcd_send_command hW4 1 envF 0 0 = some ((), 0, specSend hW4 0 (1 % 256))
    ∧ lcd_send_data hW4 65 envF 0 0 = some ((), 0, specSend hW4 1 (65 % 256))
    ∧ hasGet (specSend hW4 0 (1 % 256)) = false
    ∧ (specTransfer hW4 4 3).getLast? = some (Ev.sleepUs 100) :=
  ⟨((claim_C3 hW4 1 envF 0 0).2 rfl).1,
   ((claim_C3 hW4 65 envF 0 0).2 rfl).2.1,
   ((claim_C3 hW4 1 envF 0 0).2 rfl).2.2.1,
   ((claim_C3 hW4 1 envF 0 0).2 rfl).2.2.2.2 4 3⟩

/-- Claim C7: `lcd_create_char` with `num` in [0,7] writes exactly the 8
    pattern bytes to the 8 consecutive CGRAM addresses `8*num .. 8*num+7`,
    each data write preceded by its set-CGRAM-address command; with the R/W
    line not wired the run is exactly those 16 sends and no DDRAM-address
    restore is issued, while with the R/W line wired the trace starts with a
    command-register read and ends with a set-DDRAM-address command restoring
    exactly the address read back (`read value &&& 0x7F`), so a subsequent
    write lands at the pre-call cursor position. -/
theorem claim_C7 (h : LCD_Handle) (num : Nat) (data : Nat → Nat)
    (env : Nat → Bool) (fuel k : Nat) :
    (h.rw_pin = 255 → num ≤ 7 →
      lcd_create_char (some h) num data env fuel k
        = some (some h, k,
            ((List.range 8).map fun i =>
              specSend h 0 (LCD_SETCGRAMADDR + (8 * num + i))
              ++ specSend h 1 (data i % 256)).flatten))
    ∧ (h.rw_pin ≠ 255 →
      ∀ r k2 tr, lcd_create_char (some h) num data env fuel k = some (r, k2, tr) →
        r = some h
        ∧ ∃ mid, tr = (lcd_read_command h env k).2.2 ++ mid
            ++ specSend h 0
                (LCD_SETDDRAMADDR + ((lcd_read_command h env k).1 &&& 0x7F))) := by
  constructor
  · intro hrw hnum
    have hbp : ∀ kp, busyPrefix h env fuel kp = some (kp, []) := by
      intro kp
      unfold busyPrefix
      rw [if_neg (by simp [hrw])]
    have hrun : ∀ c kp, lcd_send_command h c env fuel kp
        = some ((), kp, specSend h 0 (c % 256)) := by
      intro c kp
      rw [lem_send_command_spec, hbp]
      rfl
    have hrund : ∀ c kp, lcd_send_data h c env fuel kp
        = some ((), kp, specSend h 1 (c % 256)) := by
      intro c kp
      rw [lem_send_data_spec, hbp]
      rfl
    have harg : ∀ i, i < 8 →
        (LCD_SETCGRAMADDR ||| ((num &&& 0x7) <<< 3 + i)) % 256
          = LCD_SETCGRAMADDR + (8 * num + i) := by
      intro i hi
      have hand : num &&& 7 = num :=
        (by decide : ∀ n, n < 8 → n &&& 7 = n) num (by omega)
      have hsh : num <<< 3 = 8 * num := by
        rw [Nat.shiftLeft_eq]
        ring
      have hor : ∀ x, x < 64 → 64 ||| x = 64 + x := by decide
      show (64 ||| ((num &&& 7) <<< 3 + i)) % 256 = 64 + (8 * num + i)
      rw [hand, hsh, hor (8 * num + i) (by omega)]
      omega
    simp only [lcd_create_char]
    rw [if_neg (by simp [hrw])]
    rw [show List.range 8 = [0, 1, 2, 3, 4, 5, 6, 7] from rfl]
    simp only [List.foldl, List.map, List.flatten, seqM, bindM, pureM, emitM,
      hrun, hrund]
    rw [if_neg (by simp [hrw])]
    simp only [pureM]
    rw [harg 0 (by omega), harg 1 (by omega), harg 2 (by omega),
      harg 3 (by omega), harg 4 (by omega), harg 5 (by omega),
      harg 6 (by omega), harg 7 (by omega)]
    simp [List.append_assoc]
  · intro hrw r k2 tr hr
    simp only [lcd_create_char] at hr
    rw [if_pos hrw] at hr
    obtain ⟨a1, k1, t1, b1, k3, t3, hx1, hf1, he1⟩ := lem_bindM_some hr
    have hX : bindM (liftP (lcd_read_command h))
        (fun v => pureM (v &&& 0x7F)) env fuel k
        = some ((lcd_read_command h env k).1 &&& 0x7F,
                (lcd_read_command h env k).2.1,
                (lcd_read_command h env k).2.2 ++ []) := by
      simp [bindM, liftP, pureM]
    rw [hX] at hx1
    simp only [Option.some_inj, Prod.mk.injEq] at hx1
    obtain ⟨ha1, hk1, ht1⟩ := hx1
    obtain ⟨a2, k4, t4, b2, k5, t5, hFOLD, hrest, he2⟩ := lem_bindM_some hf1
    rw [if_pos hrw] at hrest
    obtain ⟨a3, k6, t6, b3, k7, t7, hsend, hpure, he3⟩ := lem_bindM_some hrest
    simp only [pureM, Option.some_inj, Prod.mk.injEq] at hpure
    rw [lem_send_command_spec] at hsend
    unfold busyPrefix at hsend
    rw [if_pos hrw] at hsend
    cases hbl : busyLoopGo h env fuel k4 with
    | none => rw [hbl] at hsend; simp at hsend
    | some p =>
      obtain ⟨k8, tr8⟩ := p
      rw [hbl] at hsend
      have hsend2 := Option.some.inj hsend
      simp only [Prod.mk.injEq] at hsend2
      have hadr : (LCD_SETDDRAMADDR ||| a1) % 256
          = LCD_SETDDRAMADDR + ((lcd_read_command h env k).1 &&& 0x7F) := by
        have hlt : a1 < 128 := by
          rw [← ha1]
          have h127 : (lcd_read_command h env k).1 &&& 127 ≤ 127 :=
            Nat.and_le_right
          omega
        have hor : ∀ x, x < 128 → (128 ||| x) % 256 = 128 + x := by decide
        show (128 ||| a1) % 256 = 128 + ((lcd_read_command h env k).1 &&& 0x7F)
        rw [hor a1 hlt, ha1]
      constructor
      · simp only [Prod.mk.injEq] at he1 he2 he3
        rw [he1.1, he2.1, he3.1]
        exact hpure.1.symm
      · refine ⟨t4 ++ tr8, ?_⟩
        simp only [Prod.mk.injEq] at he1 he2 he3
        have htr : tr = t1 ++ t3 := he1.2.2
        have ht3 : t3 = t4 ++ t5 := he2.2.2
        have ht5 : t5 = t6 ++ t7 := he3.2.2
        have ht7 : t7 = [] := hpure.2.2.symm
        have ht6 : t6 = tr8 ++ specSend h 0 ((LCD_SETDDRAMADDR ||| a1) % 256) := by
          rw [← hsend2.2.2]
        rw [htr, ← ht1, ht3, ht5, ht7, ht6, hadr]
        simp [List.append_assoc]

/-- Witness for C7 at the unwired handle `hW4`, index 2, pattern `i -> i`. -/
theorem claim_C7_witness :
    lcd_create_char (some hW4) 2 (fun i => i) envF 0 0
      = some (some hW4, 0,
          ((List.range 8).map fun i =>
            specSend hW4 0 (LCD_SETCGRAMADDR + (8 * 2 + i))
            ++ specSend hW4 1 (i % 256)).flatten) :=
  (claim_C7 hW4 2 (fun i => i) envF 0 0).1 rfl (by decide)
